import Mathlib

/-!
Verification of the ext-ops crate (integer operator traits: checked, saturating
and wrapping arithmetic) against its natural-language specification.

The Rust crate implements each operator for every primitive integer width via a
macro over the type list.  The logic is identical across widths — only the
constants differ — so the development embeds each operator family as a function
parametrised by the bit width `W`, acting on mathematical integers.  A signed
`W`-bit value ranges over `[-2^(W-1), 2^(W-1)-1]`, an unsigned one over
`[0, 2^W-1]`.  The crate delegates raw arithmetic to the Rust standard
library's `checked_*` / `saturating_*` / `wrapping_*` primitives; those
primitives are embedded here by their documented semantics (`checked_*`
returns the true result exactly when representable, signed division truncates
toward zero, wrapping reduces modulo `2^W` into the representable range).
-/

namespace ExtOps

/-- Minimum value of a signed `W`-bit integer type, `-2^(W-1)`. -/
def intMin (W : Nat) : Int := -(2 ^ (W - 1))

/-- Maximum value of a signed `W`-bit integer type, `2^(W-1) - 1`. -/
def intMax (W : Nat) : Int := 2 ^ (W - 1) - 1

/-- Maximum value of an unsigned `W`-bit integer type, `2^W - 1`. -/
def uintMax (W : Nat) : Int := 2 ^ W - 1

/-- Embeds the unit struct `Overflow` from src/error.rs. -/
inductive Overflow where | mk deriving DecidableEq

/-- Embeds the unit struct `Underflow` from src/error.rs. -/
inductive Underflow where | mk deriving DecidableEq

/-- Embeds the unit struct `Undefined` from src/error.rs. -/
inductive Undefined where | mk deriving DecidableEq

/-- Embeds `enum RangeError { Underflow, Overflow }` from src/error.rs. -/
inductive RangeError where | Underflow | Overflow deriving DecidableEq

/-- Embeds `enum ArithmeticError { Undefined, Underflow, Overflow }` from src/error.rs. -/
inductive ArithmeticError where | Undefined | Underflow | Overflow deriving DecidableEq

/-- Embeds `impl From<Overflow> for ArithmeticError` (src/error.rs lines 35-39). -/
def ArithmeticError.fromOverflow (_ : ExtOps.Overflow) : ArithmeticError := .Overflow

/-- Embeds `impl From<RangeError> for ArithmeticError` (src/error.rs lines 41-48). -/
def ArithmeticError.fromRangeError : RangeError → ArithmeticError
  | .Underflow => .Underflow
  | .Overflow => .Overflow

/-- Embeds `impl From<Undefined> for ArithmeticError` (src/error.rs lines 50-54). -/
def ArithmeticError.fromUndefined (_ : ExtOps.Undefined) : ArithmeticError := .Undefined

/-- Embeds `impl From<Underflow> for ArithmeticError` (src/error.rs lines 56-60). -/
def ArithmeticError.fromUnderflow (_ : ExtOps.Underflow) : ArithmeticError := .Underflow

/-- Embeds `impl From<Overflow> for RangeError` (src/error.rs lines 110-114). -/
def RangeError.fromOverflow (_ : ExtOps.Overflow) : RangeError := .Overflow

/-- Embeds `impl From<Underflow> for RangeError` (src/error.rs lines 116-120). -/
def RangeError.fromUnderflow (_ : ExtOps.Underflow) : RangeError := .Underflow

/-- The caller-side match that reads an `ArithmeticError` back as a range kind
(no such conversion exists in the crate; this is the "matching back" of the
losslessness property). -/
def ArithmeticError.toRangeError : ArithmeticError → Option RangeError
  | .Undefined => none
  | .Underflow => some .Underflow
  | .Overflow => some .Overflow

/-- The caller-side match that reads a `RangeError` back as an `Overflow` tag. -/
def RangeError.toOverflow : RangeError → Option ExtOps.Overflow
  | .Underflow => none
  | .Overflow => some .mk

/-- The caller-side match that reads a `RangeError` back as an `Underflow` tag. -/
def RangeError.toUnderflow : RangeError → Option ExtOps.Underflow
  | .Underflow => some .mk
  | .Overflow => none

/-- The caller-side match that reads an `ArithmeticError` back as an `Overflow` tag. -/
def ArithmeticError.toOverflow : ArithmeticError → Option ExtOps.Overflow
  | .Overflow => some .mk
  | _ => none

/-- The caller-side match that reads an `ArithmeticError` back as an `Underflow` tag. -/
def ArithmeticError.toUnderflow : ArithmeticError → Option ExtOps.Underflow
  | .Underflow => some .mk
  | _ => none

/-- The caller-side match that reads an `ArithmeticError` back as an `Undefined` tag. -/
def ArithmeticError.toUndefined : ArithmeticError → Option ExtOps.Undefined
  | .Undefined => some .mk
  | _ => none

/-- True exactly on the `error` branch of a `Result`/`Except` value. -/
def isError {ε α : Type} : Except ε α → Bool
  | .error _ => true
  | .ok _ => false

/-- Decidable equality of `Result` values, so the operators can be evaluated
on concrete inputs. -/
instance {ε α : Type} [DecidableEq ε] [DecidableEq α] : DecidableEq (Except ε α) := fun x y =>
  match x, y with
  | .ok a, .ok b => if h : a = b then .isTrue (by rw [h]) else .isFalse (by simp [h])
  | .error a, .error b => if h : a = b then .isTrue (by rw [h]) else .isFalse (by simp [h])
  | .ok _, .error _ => .isFalse (by simp)
  | .error _, .ok _ => .isFalse (by simp)

/-- Names of the error types a checked-operator impl can declare as
`type Error = ...` in src/try_ops.rs. -/
inductive ErrKind where | overflow | underflow | undefined | rangeError | arithmeticError
deriving DecidableEq

namespace Signed

/-- Embeds Rust `iN::checked_add`: the true sum exactly when representable. -/
def checked_add (W : Nat) (a b : Int) : Option Int :=
  if intMin W ≤ a + b ∧ a + b ≤ intMax W then some (a + b) else none

/-- Embeds Rust `iN::checked_sub`: the true difference exactly when representable. -/
def checked_sub (W : Nat) (a b : Int) : Option Int :=
  if intMin W ≤ a - b ∧ a - b ≤ intMax W then some (a - b) else none

/-- Embeds Rust `iN::checked_mul`: the true product exactly when representable. -/
def checked_mul (W : Nat) (a b : Int) : Option Int :=
  if intMin W ≤ a * b ∧ a * b ≤ intMax W then some (a * b) else none

/-- Embeds Rust `iN::checked_div`: `None` when the divisor is zero or the
division overflows (`a == MIN, b == -1`); otherwise the quotient truncated
toward zero. -/
def checked_div (W : Nat) (a b : Int) : Option Int :=
  if b = 0 ∨ (a = intMin W ∧ b = -1) then none else some (Int.tdiv a b)

/-- Embeds Rust `iN::checked_rem`: `None` when the divisor is zero or the
corresponding division overflows; otherwise the remainder with the sign of
the dividend. -/
def checked_rem (W : Nat) (a b : Int) : Option Int :=
  if b = 0 ∨ (a = intMin W ∧ b = -1) then none else some (Int.tmod a b)

/-- Embeds Rust `iN::checked_neg`: `None` exactly at `MIN`. -/
def checked_neg (W : Nat) (a : Int) : Option Int :=
  if a = intMin W then none else some (-a)

/-- Embeds `TryAdd for iN` (src/try_ops.rs lines 110-124): classify a
`checked_add` failure as `Overflow` when `self >= 0`, else `Underflow`. -/
def try_add (W : Nat) (a b : Int) : Except RangeError Int :=
  match checked_add W a b with
  | none => .error (if 0 ≤ a then RangeError.Overflow else RangeError.Underflow)
  | some n => .ok n

/-- Embeds `TryDiv for iN` (src/try_ops.rs lines 126-141): classify a
`checked_div` failure as `Undefined` when `rhs == 0`, else `Overflow`. -/
def try_div (W : Nat) (a b : Int) : Except ArithmeticError Int :=
  match checked_div W a b with
  | none => .error (if b = 0 then ArithmeticError.Undefined else ArithmeticError.Overflow)
  | some n => .ok n

/-- Embeds `TryMul for iN` (src/try_ops.rs lines 143-157): classify a
`checked_mul` failure as `Overflow` when the operand signs agree, else
`Underflow`. -/
def try_mul (W : Nat) (a b : Int) : Except RangeError Int :=
  match checked_mul W a b with
  | none => .error (if (0 ≤ a) ↔ (0 ≤ b) then RangeError.Overflow else RangeError.Underflow)
  | some n => .ok n

/-- Embeds `TryNeg for iN` (src/try_ops.rs lines 159-169): a `checked_neg`
failure is the single-kind `Overflow` error. -/
def try_neg (W : Nat) (a : Int) : Except Overflow Int :=
  match checked_neg W a with
  | none => .error Overflow.mk
  | some n => .ok n

/-- Embeds `TryRem for iN` (src/try_ops.rs lines 171-187): a `checked_rem`
failure with `rhs == 0` is `Undefined`; the only other failure is
`self == MIN, rhs == -1`, accepted as `Ok(0)`. -/
def try_rem (W : Nat) (a b : Int) : Except Undefined Int :=
  match checked_rem W a b with
  | none => if b = 0 then .error Undefined.mk else .ok 0
  | some n => .ok n

/-- Embeds `TrySub for iN` (src/try_ops.rs lines 189-203): classify a
`checked_sub` failure as `Overflow` when `self >= 0`, else `Underflow`. -/
def try_sub (W : Nat) (a b : Int) : Except RangeError Int :=
  match checked_sub W a b with
  | none => .error (if 0 ≤ a then RangeError.Overflow else RangeError.Underflow)
  | some n => .ok n

/-- Embeds Rust `iN::saturating_add`, to which the crate's `SaturatingAdd`
impl delegates: clamp the true sum to the representable range. -/
def saturating_add (W : Nat) (a b : Int) : Int := max (intMin W) (min (intMax W) (a + b))

/-- Embeds Rust `iN::saturating_sub`, to which the crate's `SaturatingSub`
impl delegates: clamp the true difference to the representable range. -/
def saturating_sub (W : Nat) (a b : Int) : Int := max (intMin W) (min (intMax W) (a - b))

/-- Embeds Rust `iN::saturating_mul`, to which the crate's `SaturatingMul`
impl delegates: clamp the true product to the representable range. -/
def saturating_mul (W : Nat) (a b : Int) : Int := max (intMin W) (min (intMax W) (a * b))

/-- Embeds Rust `iN::saturating_neg`, to which the crate's `SaturatingNeg`
impl for signed types delegates: `MIN` saturates to `MAX`, all else negates. -/
def saturating_neg (W : Nat) (a : Int) : Int := if a = intMin W then intMax W else -a

/-- Reduction of an arbitrary integer into the signed `W`-bit range by
two's-complement wraparound (the unique representative modulo `2^W`). -/
def wrap (W : Nat) (x : Int) : Int := (x + 2 ^ (W - 1)) % 2 ^ W - 2 ^ (W - 1)

/-- Embeds Rust `iN::wrapping_add`, to which the crate's `WrappingAdd` impl
delegates. -/
def wrapping_add (W : Nat) (a b : Int) : Int := wrap W (a + b)

/-- Embeds Rust `iN::wrapping_sub`, to which the crate's `WrappingSub` impl
delegates. -/
def wrapping_sub (W : Nat) (a b : Int) : Int := wrap W (a - b)

/-- Embeds Rust `iN::wrapping_mul`, to which the crate's `WrappingMul` impl
delegates. -/
def wrapping_mul (W : Nat) (a b : Int) : Int := wrap W (a * b)

/-- Embeds Rust `iN::wrapping_neg`, to which the crate's `WrappingNeg` impl
delegates. -/
def wrapping_neg (W : Nat) (a : Int) : Int := wrap W (-a)

/-- The `type Error` declared by `TryAdd for iN` in src/try_ops.rs. -/
def tryAddErrorTy : ErrKind := .rangeError

/-- The `type Error` declared by `TryDiv for iN` in src/try_ops.rs. -/
def tryDivErrorTy : ErrKind := .arithmeticError

/-- The `type Error` declared by `TryMul for iN` in src/try_ops.rs. -/
def tryMulErrorTy : ErrKind := .rangeError

/-- The `type Error` declared by `TryNeg for iN` in src/try_ops.rs (line 161):
the single-kind `Overflow` struct. -/
def tryNegErrorTy : ErrKind := .overflow

/-- The `type Error` declared by `TryRem for iN` in src/try_ops.rs. -/
def tryRemErrorTy : ErrKind := .undefined

/-- The `type Error` declared by `TrySub for iN` in src/try_ops.rs. -/
def trySubErrorTy : ErrKind := .rangeError

/-- Records that the `impl_int_ops` macro of src/saturating_ops.rs (lines
90-110) generates a `SaturatingNeg` impl for every signed integer type. -/
def hasSaturatingNeg : Bool := true

end Signed

namespace Unsigned

/-- Embeds Rust `uN::checked_add`: the true sum exactly when representable. -/
def checked_add (W : Nat) (a b : Int) : Option Int :=
  if a + b ≤ uintMax W then some (a + b) else none

/-- Embeds Rust `uN::checked_sub`: the true difference exactly when it does
not drop below zero. -/
def checked_sub (W : Nat) (a b : Int) : Option Int :=
  if b ≤ a then some (a - b) else none

/-- Embeds Rust `uN::checked_mul`: the true product exactly when representable. -/
def checked_mul (W : Nat) (a b : Int) : Option Int :=
  if a * b ≤ uintMax W then some (a * b) else none

/-- Embeds Rust `uN::checked_div`: `None` exactly when the divisor is zero. -/
def checked_div (W : Nat) (a b : Int) : Option Int :=
  if b = 0 then none else some (Int.tdiv a b)

/-- Embeds Rust `uN::checked_rem`: `None` exactly when the divisor is zero. -/
def checked_rem (W : Nat) (a b : Int) : Option Int :=
  if b = 0 then none else some (Int.tmod a b)

/-- Embeds Rust `uN::checked_neg`: `Some(0)` at zero, `None` elsewhere. -/
def checked_neg (W : Nat) (a : Int) : Option Int :=
  if a = 0 then some 0 else none

/-- Embeds `TryAdd for uN` (src/try_ops.rs lines 224-234): any failure is the
single-kind `Overflow` error. -/
def try_add (W : Nat) (a b : Int) : Except Overflow Int :=
  match checked_add W a b with
  | none => .error Overflow.mk
  | some n => .ok n

/-- Embeds `TryDiv for uN` (src/try_ops.rs lines 236-246): any failure is the
single-kind `Undefined` error. -/
def try_div (W : Nat) (a b : Int) : Except Undefined Int :=
  match checked_div W a b with
  | none => .error Undefined.mk
  | some n => .ok n

/-- Embeds `TryMul for uN` (src/try_ops.rs lines 248-258): any failure is the
single-kind `Overflow` error. -/
def try_mul (W : Nat) (a b : Int) : Except Overflow Int :=
  match checked_mul W a b with
  | none => .error Overflow.mk
  | some n => .ok n

/-- Embeds `TryNeg for uN` (src/try_ops.rs lines 260-270): any failure is the
single-kind `Underflow` error. -/
def try_neg (W : Nat) (a : Int) : Except Underflow Int :=
  match checked_neg W a with
  | none => .error Underflow.mk
  | some n => .ok n

/-- Embeds `TryRem for uN` (src/try_ops.rs lines 272-282): any failure is the
single-kind `Undefined` error. -/
def try_rem (W : Nat) (a b : Int) : Except Undefined Int :=
  match checked_rem W a b with
  | none => .error Undefined.mk
  | some n => .ok n

/-- Embeds `TrySub for uN` (src/try_ops.rs lines 284-294): any failure is the
single-kind `Underflow` error. -/
def try_sub (W : Nat) (a b : Int) : Except Underflow Int :=
  match checked_sub W a b with
  | none => .error Underflow.mk
  | some n => .ok n

/-- Embeds Rust `uN::saturating_add`, to which the crate's `SaturatingAdd`
impl delegates: clamp the true sum at the maximum. -/
def saturating_add (W : Nat) (a b : Int) : Int := min (uintMax W) (a + b)

/-- Embeds Rust `uN::saturating_sub`, to which the crate's `SaturatingSub`
impl delegates: clamp the true difference at zero. -/
def saturating_sub (W : Nat) (a b : Int) : Int := max 0 (a - b)

/-- Embeds Rust `uN::saturating_mul`, to which the crate's `SaturatingMul`
impl delegates: clamp the true product at the maximum. -/
def saturating_mul (W : Nat) (a b : Int) : Int := min (uintMax W) (a * b)

/-- Embeds Rust `uN::wrapping_add`, to which the crate's `WrappingAdd` impl
delegates: the true sum reduced modulo `2^W`. -/
def wrapping_add (W : Nat) (a b : Int) : Int := (a + b) % 2 ^ W

/-- Embeds Rust `uN::wrapping_sub`, to which the crate's `WrappingSub` impl
delegates: the true difference reduced modulo `2^W`. -/
def wrapping_sub (W : Nat) (a b : Int) : Int := (a - b) % 2 ^ W

/-- Embeds Rust `uN::wrapping_mul`, to which the crate's `WrappingMul` impl
delegates: the true product reduced modulo `2^W`. -/
def wrapping_mul (W : Nat) (a b : Int) : Int := (a * b) % 2 ^ W

/-- Embeds Rust `uN::wrapping_neg`, to which the crate's `WrappingNeg` impl
delegates: the true negation reduced modulo `2^W`. -/
def wrapping_neg (W : Nat) (a : Int) : Int := (-a) % 2 ^ W

/-- Records that the `impl_uint_ops` macro of src/saturating_ops.rs (lines
115-123) generates impls only for `SaturatingAdd`, `SaturatingMul` and
`SaturatingSub` — no `SaturatingNeg` impl exists for any unsigned type. -/
def hasSaturatingNeg : Bool := false

end Unsigned

/-!
Normal forms of the checked operators: each `try_*` function rewritten as a
single conditional, proved by unfolding the definition.  These are shared by
the claim proofs below.
-/

/-- Normal form of signed `try_add`. -/
theorem Signed.try_add_eq (W : Nat) (a b : Int) :
    try_add W a b =
      if intMin W ≤ a + b ∧ a + b ≤ intMax W then .ok (a + b)
      else .error (if 0 ≤ a then RangeError.Overflow else RangeError.Underflow) := by
  unfold try_add checked_add
  by_cases h : intMin W ≤ a + b ∧ a + b ≤ intMax W <;> simp [h]

/-- Normal form of signed `try_sub`. -/
theorem Signed.try_sub_eq (W : Nat) (a b : Int) :
    try_sub W a b =
      if intMin W ≤ a - b ∧ a - b ≤ intMax W then .ok (a - b)
      else .error (if 0 ≤ a then RangeError.Overflow else RangeError.Underflow) := by
  unfold try_sub checked_sub
  by_cases h : intMin W ≤ a - b ∧ a - b ≤ intMax W
  · rw [if_pos h, if_pos h]
  · rw [if_neg h, if_neg h]

/-- Normal form of signed `try_mul`. -/
theorem Signed.try_mul_eq (W : Nat) (a b : Int) :
    try_mul W a b =
      if intMin W ≤ a * b ∧ a * b ≤ intMax W then .ok (a * b)
      else .error (if (0 ≤ a) ↔ (0 ≤ b) then RangeError.Overflow else RangeError.Underflow) := by
  unfold try_mul checked_mul
  by_cases h : intMin W ≤ a * b ∧ a * b ≤ intMax W <;> simp [h]

/-- Normal form of signed `try_div`. -/
theorem Signed.try_div_eq (W : Nat) (a b : Int) :
    try_div W a b =
      if b = 0 then .error ArithmeticError.Undefined
      else if a = intMin W ∧ b = -1 then .error ArithmeticError.Overflow
      else .ok (Int.tdiv a b) := by
  unfold try_div checked_div
  by_cases hb : b = 0 <;> by_cases hm : a = intMin W ∧ b = -1 <;> simp [hb, hm]

/-- Normal form of signed `try_rem`. -/
theorem Signed.try_rem_eq (W : Nat) (a b : Int) :
    try_rem W a b =
      if b = 0 then .error Undefined.mk
      else if a = intMin W ∧ b = -1 then .ok 0
      else .ok (Int.tmod a b) := by
  unfold try_rem checked_rem
  by_cases hb : b = 0 <;> by_cases hm : a = intMin W ∧ b = -1 <;> simp [hb, hm]

/-- Normal form of signed `try_neg`. -/
theorem Signed.try_neg_eq (W : Nat) (a : Int) :
    try_neg W a = if a = intMin W then .error Overflow.mk else .ok (-a) := by
  unfold try_neg checked_neg
  by_cases h : a = intMin W <;> simp [h]

/-- Normal form of unsigned `try_add`. -/
theorem Unsigned.try_add_eq_u (W : Nat) (a b : Int) :
    try_add W a b =
      if a + b ≤ uintMax W then .ok (a + b) else .error Overflow.mk := by
  unfold try_add checked_add
  by_cases h : a + b ≤ uintMax W <;> simp [h]

/-- Normal form of unsigned `try_sub`. -/
theorem Unsigned.try_sub_eq_u (W : Nat) (a b : Int) :
    try_sub W a b = if b ≤ a then .ok (a - b) else .error Underflow.mk := by
  unfold try_sub checked_sub
  by_cases h : b ≤ a <;> simp [h]

/-- Normal form of unsigned `try_mul`. -/
theorem Unsigned.try_mul_eq_u (W : Nat) (a b : Int) :
    try_mul W a b =
      if a * b ≤ uintMax W then .ok (a * b) else .error Overflow.mk := by
  unfold try_mul checked_mul
  by_cases h : a * b ≤ uintMax W <;> simp [h]

/-- Normal form of unsigned `try_div`. -/
theorem Unsigned.try_div_eq_u (W : Nat) (a b : Int) :
    try_div W a b = if b = 0 then .error Undefined.mk else .ok (Int.tdiv a b) := by
  unfold try_div checked_div
  by_cases h : b = 0 <;> simp [h]

/-- Normal form of unsigned `try_rem`. -/
theorem Unsigned.try_rem_eq_u (W : Nat) (a b : Int) :
    try_rem W a b = if b = 0 then .error Undefined.mk else .ok (Int.tmod a b) := by
  unfold try_rem checked_rem
  by_cases h : b = 0 <;> simp [h]

/-- Normal form of unsigned `try_neg`. -/
theorem Unsigned.try_neg_eq_u (W : Nat) (a : Int) :
    try_neg W a = if a = 0 then .ok 0 else .error Underflow.mk := by
  unfold try_neg checked_neg
  by_cases h : a = 0 <;> simp [h]

/-!
Claim theorems.  Each theorem formalises one claim of the specification
against the embedded operators above.
-/

/-- Claim C1: for every signed integer type, `try_div(a, b)` returns
`Err(ArithmeticError::Undefined)` iff `b == 0`, returns
`Err(ArithmeticError::Overflow)` iff `a == MIN` and `b == -1`, and otherwise
returns `Ok` with the quotient; for every unsigned integer type (operands
`c`, `d`), `try_div` returns `Err(Undefined)` iff `d == 0` and otherwise
succeeds — unsigned division never overflows. -/
theorem c1_try_div_classification (W : Nat) (a b c d : Int)
    (h : (intMin W ≤ a ∧ a ≤ intMax W) ∧ (intMin W ≤ b ∧ b ≤ intMax W) ∧
      (0 ≤ c ∧ c ≤ uintMax W) ∧ (0 ≤ d ∧ d ≤ uintMax W)) :
    (Signed.try_div W a b = .error ArithmeticError.Undefined ↔ b = 0) ∧
    (Signed.try_div W a b = .error ArithmeticError.Overflow ↔ (a = intMin W ∧ b = -1)) ∧
    (Signed.try_div W a b = .ok (Int.tdiv a b) ↔ (b ≠ 0 ∧ ¬(a = intMin W ∧ b = -1))) ∧
    (Unsigned.try_div W c d = .error Undefined.mk ↔ d = 0) ∧
    (Unsigned.try_div W c d = .ok (Int.tdiv c d) ↔ d ≠ 0) := by
  clear h
  simp only [Signed.try_div_eq, Unsigned.try_div_eq_u]
  refine ⟨?_, ?_, ?_, ?_, ?_⟩ <;> split_ifs <;> simp_all

/-- Witness for claim C1 at `W = 8`, signed operands `(-128, -1)` (the
overflow case of `i8`), unsigned operands `(100, 0)` (division by zero). -/
theorem c1_witness :
    ((intMin 8 ≤ (-128 : Int) ∧ (-128 : Int) ≤ intMax 8) ∧
     (intMin 8 ≤ (-1 : Int) ∧ (-1 : Int) ≤ intMax 8) ∧
     ((0 : Int) ≤ 100 ∧ (100 : Int) ≤ uintMax 8) ∧
     ((0 : Int) ≤ 0 ∧ (0 : Int) ≤ uintMax 8)) ∧
    ((Signed.try_div 8 (-128) (-1) = .error ArithmeticError.Undefined ↔ (-1 : Int) = 0) ∧
     (Signed.try_div 8 (-128) (-1) = .error ArithmeticError.Overflow ↔
       ((-128 : Int) = intMin 8 ∧ (-1 : Int) = -1)) ∧
     (Signed.try_div 8 (-128) (-1) = .ok (Int.tdiv (-128) (-1)) ↔
       ((-1 : Int) ≠ 0 ∧ ¬((-128 : Int) = intMin 8 ∧ (-1 : Int) = -1))) ∧
     (Unsigned.try_div 8 100 0 = .error Undefined.mk ↔ (0 : Int) = 0) ∧
     (Unsigned.try_div 8 100 0 = .ok (Int.tdiv 100 0) ↔ (0 : Int) ≠ 0)) :=
  ⟨by decide, c1_try_div_classification 8 (-128) (-1) 100 0 (by decide)⟩

/-- Claim C2: for every signed integer type, `try_rem(a, b)` returns
`Err(Undefined)` iff `b == 0`; in the special case `a == MIN, b == -1`
(where division would overflow) it succeeds with `Ok(0)` rather than
propagating an overflow error; for every unsigned integer type (operands
`c`, `d`), `try_rem` fails (with `Undefined`) exactly when `d == 0`. -/
theorem c2_try_rem_classification (W : Nat) (a b c d : Int)
    (h : (intMin W ≤ a ∧ a ≤ intMax W) ∧ (intMin W ≤ b ∧ b ≤ intMax W) ∧
      (0 ≤ c ∧ c ≤ uintMax W) ∧ (0 ≤ d ∧ d ≤ uintMax W)) :
    (Signed.try_rem W a b = .error Undefined.mk ↔ b = 0) ∧
    (Signed.try_rem W (intMin W) (-1) = .ok 0) ∧
    (Unsigned.try_rem W c d = .error Undefined.mk ↔ d = 0) := by
  clear h
  simp only [Signed.try_rem_eq, Unsigned.try_rem_eq_u]
  refine ⟨?_, ?_, ?_⟩ <;> split_ifs <;> simp_all

/-- Witness for claim C2 at `W = 8`, signed operands `(99, 0)` (remainder by
zero), unsigned operands `(99, 10)`. -/
theorem c2_witness :
    ((intMin 8 ≤ (99 : Int) ∧ (99 : Int) ≤ intMax 8) ∧
     (intMin 8 ≤ (0 : Int) ∧ (0 : Int) ≤ intMax 8) ∧
     ((0 : Int) ≤ 99 ∧ (99 : Int) ≤ uintMax 8) ∧
     ((0 : Int) ≤ 10 ∧ (10 : Int) ≤ uintMax 8)) ∧
    ((Signed.try_rem 8 99 0 = .error Undefined.mk ↔ (0 : Int) = 0) ∧
     (Signed.try_rem 8 (intMin 8) (-1) = .ok 0) ∧
     (Unsigned.try_rem 8 99 10 = .error Undefined.mk ↔ (10 : Int) = 0)) :=
  ⟨by decide, c2_try_rem_classification 8 99 0 99 10 (by decide)⟩

/-- Claim C5: for every signed integer type, `try_add(a, b)` returns `Ok`
with the true sum exactly when that sum is representable, and on failure
returns `RangeError::Overflow` exactly when `a ≥ 0` and
`RangeError::Underflow` exactly when `a < 0`; for every unsigned integer
type (operands `c`, `d`), `try_add` succeeds with the true sum exactly when
representable and on failure always returns the single-kind `Overflow`
error (underflow is impossible). -/
theorem c5_try_add_classification (W : Nat) (a b c d : Int)
    (h : (intMin W ≤ a ∧ a ≤ intMax W) ∧ (intMin W ≤ b ∧ b ≤ intMax W) ∧
      (0 ≤ c ∧ c ≤ uintMax W) ∧ (0 ≤ d ∧ d ≤ uintMax W)) :
    (Signed.try_add W a b = .ok (a + b) ↔ (intMin W ≤ a + b ∧ a + b ≤ intMax W)) ∧
    (Signed.try_add W a b = .error RangeError.Overflow ↔
      (¬(intMin W ≤ a + b ∧ a + b ≤ intMax W) ∧ 0 ≤ a)) ∧
    (Signed.try_add W a b = .error RangeError.Underflow ↔
      (¬(intMin W ≤ a + b ∧ a + b ≤ intMax W) ∧ a < 0)) ∧
    (Unsigned.try_add W c d = .ok (c + d) ↔ c + d ≤ uintMax W) ∧
    (Unsigned.try_add W c d = .error Overflow.mk ↔ ¬(c + d ≤ uintMax W)) := by
  clear h
  simp only [Signed.try_add_eq, Unsigned.try_add_eq_u]
  refine ⟨?_, ?_, ?_, ?_, ?_⟩ <;> split_ifs <;> simp_all

/-- Witness for claim C5 at `W = 8`, signed operands `(100, 28)` (overflow),
unsigned operands `(200, 56)` (overflow). -/
theorem c5_witness :
    ((intMin 8 ≤ (100 : Int) ∧ (100 : Int) ≤ intMax 8) ∧
     (intMin 8 ≤ (28 : Int) ∧ (28 : Int) ≤ intMax 8) ∧
     ((0 : Int) ≤ 200 ∧ (200 : Int) ≤ uintMax 8) ∧
     ((0 : Int) ≤ 56 ∧ (56 : Int) ≤ uintMax 8)) ∧
    ((Signed.try_add 8 100 28 = .ok (100 + 28) ↔
       (intMin 8 ≤ (100 : Int) + 28 ∧ (100 : Int) + 28 ≤ intMax 8)) ∧
     (Signed.try_add 8 100 28 = .error RangeError.Overflow ↔
       (¬(intMin 8 ≤ (100 : Int) + 28 ∧ (100 : Int) + 28 ≤ intMax 8) ∧ (0 : Int) ≤ 100)) ∧
     (Signed.try_add 8 100 28 = .error RangeError.Underflow ↔
       (¬(intMin 8 ≤ (100 : Int) + 28 ∧ (100 : Int) + 28 ≤ intMax 8) ∧ (100 : Int) < 0)) ∧
     (Unsigned.try_add 8 200 56 = .ok (200 + 56) ↔ (200 : Int) + 56 ≤ uintMax 8) ∧
     (Unsigned.try_add 8 200 56 = .error Overflow.mk ↔ ¬((200 : Int) + 56 ≤ uintMax 8))) :=
  ⟨by decide, c5_try_add_classification 8 100 28 200 56 (by decide)⟩

/-- Claim C6: for every signed integer type, `try_mul(a, b)` returns `Ok`
with the true product exactly when it is representable, and on failure
returns `RangeError::Overflow` exactly when the operand signs agree
(`(a ≥ 0) == (b ≥ 0)`) and `RangeError::Underflow` otherwise; for every
unsigned integer type (operands `c`, `d`), `try_mul` succeeds with the true
product exactly when representable and on failure always returns the
single-kind `Overflow` error. -/
theorem c6_try_mul_classification (W : Nat) (a b c d : Int)
    (h : (intMin W ≤ a ∧ a ≤ intMax W) ∧ (intMin W ≤ b ∧ b ≤ intMax W) ∧
      (0 ≤ c ∧ c ≤ uintMax W) ∧ (0 ≤ d ∧ d ≤ uintMax W)) :
    (Signed.try_mul W a b = .ok (a * b) ↔ (intMin W ≤ a * b ∧ a * b ≤ intMax W)) ∧
    (Signed.try_mul W a b = .error RangeError.Overflow ↔
      (¬(intMin W ≤ a * b ∧ a * b ≤ intMax W) ∧ ((0 ≤ a) ↔ (0 ≤ b)))) ∧
    (Signed.try_mul W a b = .error RangeError.Underflow ↔
      (¬(intMin W ≤ a * b ∧ a * b ≤ intMax W) ∧ ¬((0 ≤ a) ↔ (0 ≤ b)))) ∧
    (Unsigned.try_mul W c d = .ok (c * d) ↔ c * d ≤ uintMax W) ∧
    (Unsigned.try_mul W c d = .error Overflow.mk ↔ ¬(c * d ≤ uintMax W)) := by
  clear h
  simp only [Signed.try_mul_eq, Unsigned.try_mul_eq_u]
  refine ⟨?_, ?_, ?_, ?_, ?_⟩ <;> split_ifs <;> simp_all

/-- Witness for claim C6 at `W = 8`, signed operands `(43, -3)` (disagreeing
signs, underflow), unsigned operands `(16, 16)` (overflow). -/
theorem c6_witness :
    ((intMin 8 ≤ (43 : Int) ∧ (43 : Int) ≤ intMax 8) ∧
     (intMin 8 ≤ (-3 : Int) ∧ (-3 : Int) ≤ intMax 8) ∧
     ((0 : Int) ≤ 16 ∧ (16 : Int) ≤ uintMax 8) ∧
     ((0 : Int) ≤ 16 ∧ (16 : Int) ≤ uintMax 8)) ∧
    ((Signed.try_mul 8 43 (-3) = .ok (43 * -3) ↔
       (intMin 8 ≤ (43 : Int) * -3 ∧ (43 : Int) * -3 ≤ intMax 8)) ∧
     (Signed.try_mul 8 43 (-3) = .error RangeError.Overflow ↔
       (¬(intMin 8 ≤ (43 : Int) * -3 ∧ (43 : Int) * -3 ≤ intMax 8) ∧
        ((0 ≤ (43 : Int)) ↔ (0 ≤ (-3 : Int))))) ∧
     (Signed.try_mul 8 43 (-3) = .error RangeError.Underflow ↔
       (¬(intMin 8 ≤ (43 : Int) * -3 ∧ (43 : Int) * -3 ≤ intMax 8) ∧
        ¬((0 ≤ (43 : Int)) ↔ (0 ≤ (-3 : Int))))) ∧
     (Unsigned.try_mul 8 16 16 = .ok (16 * 16) ↔ (16 : Int) * 16 ≤ uintMax 8) ∧
     (Unsigned.try_mul 8 16 16 = .error Overflow.mk ↔ ¬((16 : Int) * 16 ≤ uintMax 8))) :=
  ⟨by decide, c6_try_mul_classification 8 43 (-3) 16 16 (by decide)⟩

/-- Relation between signed checked and saturating addition: an `Underflow`
failure saturates to the minimum, an `Overflow` failure to the maximum, and
success leaves the value unchanged.  Only the right operand's range is
needed; the failure direction is then determined by the sign of `a`. -/
theorem Signed.sat_add_spec (W : Nat) (a b : Int)
    (hb1 : intMin W ≤ b) (hb2 : b ≤ intMax W) :
    (try_add W a b = .error RangeError.Underflow → saturating_add W a b = intMin W) ∧
    (try_add W a b = .error RangeError.Overflow → saturating_add W a b = intMax W) ∧
    (try_add W a b = .ok (a + b) → saturating_add W a b = a + b) := by
  rw [try_add_eq]
  unfold saturating_add intMin intMax at *
  have hp : (0 : Int) < 2 ^ (W - 1) := pow_pos (by norm_num) _
  refine ⟨?_, ?_, ?_⟩ <;> split_ifs with h1 h2 <;> intro h' <;> simp at h' <;> omega

/-- Relation between signed checked and saturating subtraction. -/
theorem Signed.sat_sub_spec (W : Nat) (a b : Int)
    (hb1 : intMin W ≤ b) (hb2 : b ≤ intMax W) :
    (try_sub W a b = .error RangeError.Underflow → saturating_sub W a b = intMin W) ∧
    (try_sub W a b = .error RangeError.Overflow → saturating_sub W a b = intMax W) ∧
    (try_sub W a b = .ok (a - b) → saturating_sub W a b = a - b) := by
  rw [try_sub_eq]
  unfold saturating_sub intMin intMax at *
  have hp : (0 : Int) < 2 ^ (W - 1) := pow_pos (by norm_num) _
  refine ⟨?_, ?_, ?_⟩ <;> split_ifs with h1 h2 <;> intro h' <;> simp at h' <;> omega

/-- When the operand signs agree the true product is nonnegative. -/
theorem mul_sign_agree_nonneg (a b : Int) (hs : (0 ≤ a) ↔ (0 ≤ b)) : 0 ≤ a * b := by
  by_cases ha : 0 ≤ a
  · exact mul_nonneg ha (hs.mp ha)
  · push_neg at ha
    have hbneg : b < 0 := by
      by_contra hb
      push_neg at hb
      exact absurd (hs.mpr hb) (not_le.mpr ha)
    exact le_of_lt (mul_pos_of_neg_of_neg ha hbneg)

/-- When the operand signs disagree the true product is nonpositive. -/
theorem mul_sign_disagree_nonpos (a b : Int) (hs : ¬((0 ≤ a) ↔ (0 ≤ b))) : a * b ≤ 0 := by
  by_cases ha : 0 ≤ a
  · have hbneg : b ≤ 0 := by
      by_contra hb
      push_neg at hb
      exact hs ⟨fun _ => le_of_lt hb, fun _ => ha⟩
    exact mul_nonpos_iff.mpr (Or.inl ⟨ha, hbneg⟩)
  · push_neg at ha
    have hbpos : 0 ≤ b := by
      by_contra hb
      push_neg at hb
      exact hs ⟨fun h => absurd h (not_le.mpr ha), fun h => absurd h (not_le.mpr hb)⟩
    exact mul_nonpos_iff.mpr (Or.inr ⟨le_of_lt ha, hbpos⟩)

/-- Relation between signed checked and saturating multiplication: no operand
range assumptions are needed, because the failure direction follows from the
sign of the true product. -/
theorem Signed.sat_mul_spec (W : Nat) (a b : Int) :
    (try_mul W a b = .error RangeError.Underflow → saturating_mul W a b = intMin W) ∧
    (try_mul W a b = .error RangeError.Overflow → saturating_mul W a b = intMax W) ∧
    (try_mul W a b = .ok (a * b) → saturating_mul W a b = a * b) := by
  rw [try_mul_eq]
  unfold saturating_mul intMin intMax
  have hp : (0 : Int) < 2 ^ (W - 1) := pow_pos (by norm_num) _
  refine ⟨?_, ?_, ?_⟩
  · split_ifs with h1 h2 <;> intro h' <;> simp at h'
    have hq := mul_sign_disagree_nonpos a b h2
    generalize hg : a * b = q at h1 hq ⊢
    omega
  · split_ifs with h1 h2 <;> intro h' <;> simp at h'
    have hq := mul_sign_agree_nonneg a b h2
    generalize hg : a * b = q at h1 hq ⊢
    omega
  · split_ifs with h1 h2 <;> intro h' <;> simp at h'
    generalize hg : a * b = q at h1 ⊢
    omega

/-- Relation between unsigned checked and saturating addition. -/
theorem Unsigned.sat_add_spec_u (W : Nat) (a b : Int) :
    (try_add W a b = .error Overflow.mk → saturating_add W a b = uintMax W) ∧
    (try_add W a b = .ok (a + b) → saturating_add W a b = a + b) := by
  rw [try_add_eq_u]
  unfold saturating_add uintMax
  refine ⟨?_, ?_⟩ <;> split_ifs with h1 <;> intro h' <;> simp at h' <;> omega

/-- Relation between unsigned checked and saturating subtraction: a failure
saturates to the type minimum, zero. -/
theorem Unsigned.sat_sub_spec_u (W : Nat) (a b : Int) :
    (try_sub W a b = .error Underflow.mk → saturating_sub W a b = 0) ∧
    (try_sub W a b = .ok (a - b) → saturating_sub W a b = a - b) := by
  rw [try_sub_eq_u]
  unfold saturating_sub
  refine ⟨?_, ?_⟩ <;> split_ifs with h1 <;> intro h' <;> simp at h' <;> omega

/-- Relation between unsigned checked and saturating multiplication. -/
theorem Unsigned.sat_mul_spec_u (W : Nat) (a b : Int) :
    (try_mul W a b = .error Overflow.mk → saturating_mul W a b = uintMax W) ∧
    (try_mul W a b = .ok (a * b) → saturating_mul W a b = a * b) := by
  rw [try_mul_eq_u]
  unfold saturating_mul uintMax
  generalize hg : a * b = q
  refine ⟨?_, ?_⟩ <;> split_ifs with h1 <;> intro h' <;> simp at h' <;> omega

/-- Claim C3: for every integer type (signed operands `a`, `b`; unsigned
operands `c`, `d`) and each of add, sub, mul: if the checked form fails
with `Underflow` the saturating form returns the type's minimum; if it
fails with `Overflow` the saturating form returns the type's maximum; if
the checked form succeeds with value `v` (necessarily the true result) the
saturating form returns the identical value.  For unsigned add and mul the
only failure kind is `Overflow`; for unsigned sub it is `Underflow`, and
the unsigned minimum is `0`. -/
theorem c3_saturating_clamp (W : Nat) (a b c d : Int)
    (h : (intMin W ≤ a ∧ a ≤ intMax W) ∧ (intMin W ≤ b ∧ b ≤ intMax W) ∧
      (0 ≤ c ∧ c ≤ uintMax W) ∧ (0 ≤ d ∧ d ≤ uintMax W)) :
    (Signed.try_add W a b = .error RangeError.Underflow →
      Signed.saturating_add W a b = intMin W) ∧
    (Signed.try_add W a b = .error RangeError.Overflow →
      Signed.saturating_add W a b = intMax W) ∧
    (Signed.try_add W a b = .ok (a + b) → Signed.saturating_add W a b = a + b) ∧
    (Signed.try_sub W a b = .error RangeError.Underflow →
      Signed.saturating_sub W a b = intMin W) ∧
    (Signed.try_sub W a b = .error RangeError.Overflow →
      Signed.saturating_sub W a b = intMax W) ∧
    (Signed.try_sub W a b = .ok (a - b) → Signed.saturating_sub W a b = a - b) ∧
    (Signed.try_mul W a b = .error RangeError.Underflow →
      Signed.saturating_mul W a b = intMin W) ∧
    (Signed.try_mul W a b = .error RangeError.Overflow →
      Signed.saturating_mul W a b = intMax W) ∧
    (Signed.try_mul W a b = .ok (a * b) → Signed.saturating_mul W a b = a * b) ∧
    (Unsigned.try_add W c d = .error Overflow.mk →
      Unsigned.saturating_add W c d = uintMax W) ∧
    (Unsigned.try_add W c d = .ok (c + d) → Unsigned.saturating_add W c d = c + d) ∧
    (Unsigned.try_sub W c d = .error Underflow.mk → Unsigned.saturating_sub W c d = 0) ∧
    (Unsigned.try_sub W c d = .ok (c - d) → Unsigned.saturating_sub W c d = c - d) ∧
    (Unsigned.try_mul W c d = .error Overflow.mk →
      Unsigned.saturating_mul W c d = uintMax W) ∧
    (Unsigned.try_mul W c d = .ok (c * d) → Unsigned.saturating_mul W c d = c * d) := by
  obtain ⟨-, hb, -, -⟩ := h
  obtain ⟨hadd1, hadd2, hadd3⟩ := Signed.sat_add_spec W a b hb.1 hb.2
  obtain ⟨hsub1, hsub2, hsub3⟩ := Signed.sat_sub_spec W a b hb.1 hb.2
  obtain ⟨hmul1, hmul2, hmul3⟩ := Signed.sat_mul_spec W a b
  obtain ⟨uadd1, uadd2⟩ := Unsigned.sat_add_spec_u W c d
  obtain ⟨usub1, usub2⟩ := Unsigned.sat_sub_spec_u W c d
  obtain ⟨umul1, umul2⟩ := Unsigned.sat_mul_spec_u W c d
  exact ⟨hadd1, hadd2, hadd3, hsub1, hsub2, hsub3, hmul1, hmul2, hmul3,
    uadd1, uadd2, usub1, usub2, umul1, umul2⟩

/-- Witness for claim C3 at `W = 8`, signed operands `(100, 28)`, unsigned
operands `(200, 56)`. -/
theorem c3_witness :
    ((intMin 8 ≤ (100 : Int) ∧ (100 : Int) ≤ intMax 8) ∧
     (intMin 8 ≤ (28 : Int) ∧ (28 : Int) ≤ intMax 8) ∧
     ((0 : Int) ≤ 200 ∧ (200 : Int) ≤ uintMax 8) ∧
     ((0 : Int) ≤ 56 ∧ (56 : Int) ≤ uintMax 8)) ∧
    ((Signed.try_add 8 100 28 = .error RangeError.Underflow →
       Signed.saturating_add 8 100 28 = intMin 8) ∧
     (Signed.try_add 8 100 28 = .error RangeError.Overflow →
       Signed.saturating_add 8 100 28 = intMax 8) ∧
     (Signed.try_add 8 100 28 = .ok (100 + 28) → Signed.saturating_add 8 100 28 = 100 + 28) ∧
     (Signed.try_sub 8 100 28 = .error RangeError.Underflow →
       Signed.saturating_sub 8 100 28 = intMin 8) ∧
     (Signed.try_sub 8 100 28 = .error RangeError.Overflow →
       Signed.saturating_sub 8 100 28 = intMax 8) ∧
     (Signed.try_sub 8 100 28 = .ok (100 - 28) → Signed.saturating_sub 8 100 28 = 100 - 28) ∧
     (Signed.try_mul 8 100 28 = .error RangeError.Underflow →
       Signed.saturating_mul 8 100 28 = intMin 8) ∧
     (Signed.try_mul 8 100 28 = .error RangeError.Overflow →
       Signed.saturating_mul 8 100 28 = intMax 8) ∧
     (Signed.try_mul 8 100 28 = .ok (100 * 28) → Signed.saturating_mul 8 100 28 = 100 * 28) ∧
     (Unsigned.try_add 8 200 56 = .error Overflow.mk →
       Unsigned.saturating_add 8 200 56 = uintMax 8) ∧
     (Unsigned.try_add 8 200 56 = .ok (200 + 56) →
       Unsigned.saturating_add 8 200 56 = 200 + 56) ∧
     (Unsigned.try_sub 8 200 56 = .error Underflow.mk → Unsigned.saturating_sub 8 200 56 = 0) ∧
     (Unsigned.try_sub 8 200 56 = .ok (200 - 56) →
       Unsigned.saturating_sub 8 200 56 = 200 - 56) ∧
     (Unsigned.try_mul 8 200 56 = .error Overflow.mk →
       Unsigned.saturating_mul 8 200 56 = uintMax 8) ∧
     (Unsigned.try_mul 8 200 56 = .ok (200 * 56) →
       Unsigned.saturating_mul 8 200 56 = 200 * 56)) :=
  ⟨by decide, c3_saturating_clamp 8 100 28 200 56 (by decide)⟩

/-- The signed wrapped value differs from the true value by a multiple of
`2^W`. -/
theorem Signed.wrap_sub_dvd (W : Nat) (x : Int) : (2 ^ W : Int) ∣ (wrap W x - x) := by
  unfold wrap
  have he := Int.emod_add_ediv (x + 2 ^ (W - 1)) (2 ^ W)
  refine ⟨-((x + 2 ^ (W - 1)) / 2 ^ W), ?_⟩
  linarith

/-- The signed wrapped value lies in the representable range. -/
theorem Signed.wrap_mem_range (W : Nat) (x : Int) (hW : 0 < W) :
    intMin W ≤ wrap W x ∧ wrap W x ≤ intMax W := by
  have h2 : (2 : Int) ^ W = 2 * 2 ^ (W - 1) := by
    conv_lhs => rw [show W = W - 1 + 1 by omega]
    rw [pow_succ]
    ring
  have hmod1 : 0 ≤ (x + 2 ^ (W - 1)) % 2 ^ W := Int.emod_nonneg _ (by positivity)
  have hmod2 : (x + 2 ^ (W - 1)) % 2 ^ W < 2 ^ W := Int.emod_lt_of_pos _ (by positivity)
  unfold wrap intMin intMax
  omega

/-- Signed wrapping is the identity on the representable range. -/
theorem Signed.wrap_eq_self (W : Nat) (x : Int) (hW : 0 < W)
    (h1 : intMin W ≤ x) (h2 : x ≤ intMax W) : wrap W x = x := by
  have htwo : (2 : Int) ^ W = 2 * 2 ^ (W - 1) := by
    conv_lhs => rw [show W = W - 1 + 1 by omega]
    rw [pow_succ]
    ring
  unfold wrap
  unfold intMin at h1
  unfold intMax at h2
  rw [Int.emod_eq_of_lt (by omega) (by omega)]
  omega

/-- The unsigned wrapped value differs from the true value by a multiple of
`2^W`. -/
theorem Unsigned.umod_sub_dvd (W : Nat) (x : Int) : (2 ^ W : Int) ∣ (x % 2 ^ W - x) := by
  have he := Int.emod_add_ediv x (2 ^ W)
  exact ⟨-(x / 2 ^ W), by linarith⟩

/-- The unsigned wrapped value lies in the representable range. -/
theorem Unsigned.umod_mem_range (W : Nat) (x : Int) :
    0 ≤ x % 2 ^ W ∧ x % 2 ^ W ≤ uintMax W := by
  have hmod1 : 0 ≤ x % 2 ^ W := Int.emod_nonneg _ (by positivity)
  have hmod2 : x % 2 ^ W < 2 ^ W := Int.emod_lt_of_pos _ (by positivity)
  unfold uintMax
  omega

/-- Unsigned wrapping is the identity on the representable range. -/
theorem Unsigned.umod_eq_self (W : Nat) (x : Int) (h1 : 0 ≤ x) (h2 : x ≤ uintMax W) :
    x % 2 ^ W = x := by
  unfold uintMax at h2
  exact Int.emod_eq_of_lt h1 (by omega)

/-- Claim C4: for every integer type (signed operands `a`, `b`; unsigned
operands `c`, `d`) and each of add, sub, mul: if the checked form succeeds
with value `v` (necessarily the true result), the wrapping form returns the
identical value `v`; if the checked form fails, the wrapping form returns
the unbounded true result reduced modulo `2^W` into the type's
representable range (two's-complement wraparound for signed, direct modulo
for unsigned) — stated as: the wrapped value differs from the true result
by a multiple of `2^W` and lies in the representable range. -/
theorem c4_wrapping_consistency (W : Nat) (a b c d : Int)
    (h : 0 < W ∧ (intMin W ≤ a ∧ a ≤ intMax W) ∧ (intMin W ≤ b ∧ b ≤ intMax W) ∧
      (0 ≤ c ∧ c ≤ uintMax W) ∧ (0 ≤ d ∧ d ≤ uintMax W)) :
    (Signed.try_add W a b = .ok (a + b) → Signed.wrapping_add W a b = a + b) ∧
    (isError (Signed.try_add W a b) = true →
      (2 ^ W : Int) ∣ (Signed.wrapping_add W a b - (a + b)) ∧
      intMin W ≤ Signed.wrapping_add W a b ∧ Signed.wrapping_add W a b ≤ intMax W) ∧
    (Signed.try_sub W a b = .ok (a - b) → Signed.wrapping_sub W a b = a - b) ∧
    (isError (Signed.try_sub W a b) = true →
      (2 ^ W : Int) ∣ (Signed.wrapping_sub W a b - (a - b)) ∧
      intMin W ≤ Signed.wrapping_sub W a b ∧ Signed.wrapping_sub W a b ≤ intMax W) ∧
    (Signed.try_mul W a b = .ok (a * b) → Signed.wrapping_mul W a b = a * b) ∧
    (isError (Signed.try_mul W a b) = true →
      (2 ^ W : Int) ∣ (Signed.wrapping_mul W a b - (a * b)) ∧
      intMin W ≤ Signed.wrapping_mul W a b ∧ Signed.wrapping_mul W a b ≤ intMax W) ∧
    (Unsigned.try_add W c d = .ok (c + d) → Unsigned.wrapping_add W c d = c + d) ∧
    (isError (Unsigned.try_add W c d) = true →
      (2 ^ W : Int) ∣ (Unsigned.wrapping_add W c d - (c + d)) ∧
      0 ≤ Unsigned.wrapping_add W c d ∧ Unsigned.wrapping_add W c d ≤ uintMax W) ∧
    (Unsigned.try_sub W c d = .ok (c - d) → Unsigned.wrapping_sub W c d = c - d) ∧
    (isError (Unsigned.try_sub W c d) = true →
      (2 ^ W : Int) ∣ (Unsigned.wrapping_sub W c d - (c - d)) ∧
      0 ≤ Unsigned.wrapping_sub W c d ∧ Unsigned.wrapping_sub W c d ≤ uintMax W) ∧
    (Unsigned.try_mul W c d = .ok (c * d) → Unsigned.wrapping_mul W c d = c * d) ∧
    (isError (Unsigned.try_mul W c d) = true →
      (2 ^ W : Int) ∣ (Unsigned.wrapping_mul W c d - (c * d)) ∧
      0 ≤ Unsigned.wrapping_mul W c d ∧ Unsigned.wrapping_mul W c d ≤ uintMax W) := by
  obtain ⟨hW, ha, hb, hc, hd⟩ := h
  refine ⟨?_, ?_, ?_, ?_, ?_, ?_, ?_, ?_, ?_, ?_, ?_, ?_⟩
  · intro h'
    rw [Signed.try_add_eq] at h'
    split_ifs at h' with h1
    exact Signed.wrap_eq_self W (a + b) hW h1.1 h1.2
  · intro _
    exact ⟨Signed.wrap_sub_dvd W (a + b), Signed.wrap_mem_range W (a + b) hW⟩
  · intro h'
    rw [Signed.try_sub_eq] at h'
    split_ifs at h' with h1
    exact Signed.wrap_eq_self W (a - b) hW h1.1 h1.2
  · intro _
    exact ⟨Signed.wrap_sub_dvd W (a - b), Signed.wrap_mem_range W (a - b) hW⟩
  · intro h'
    rw [Signed.try_mul_eq] at h'
    split_ifs at h' with h1
    exact Signed.wrap_eq_self W (a * b) hW h1.1 h1.2
  · intro _
    exact ⟨Signed.wrap_sub_dvd W (a * b), Signed.wrap_mem_range W (a * b) hW⟩
  · intro h'
    rw [Unsigned.try_add_eq_u] at h'
    split_ifs at h' with h1
    exact Unsigned.umod_eq_self W (c + d) (by omega) h1
  · intro _
    exact ⟨Unsigned.umod_sub_dvd W (c + d), Unsigned.umod_mem_range W (c + d)⟩
  · intro h'
    rw [Unsigned.try_sub_eq_u] at h'
    split_ifs at h' with h1
    refine Unsigned.umod_eq_self W (c - d) (by omega) ?_
    have h2 := hc.2
    have h3 := hd.1
    omega
  · intro _
    exact ⟨Unsigned.umod_sub_dvd W (c - d), Unsigned.umod_mem_range W (c - d)⟩
  · intro h'
    rw [Unsigned.try_mul_eq_u] at h'
    split_ifs at h' with h1
    exact Unsigned.umod_eq_self W (c * d) (mul_nonneg hc.1 hd.1) h1
  · intro _
    exact ⟨Unsigned.umod_sub_dvd W (c * d), Unsigned.umod_mem_range W (c * d)⟩

/-- Witness for claim C4 at `W = 8`, signed operands `(100, 28)`, unsigned
operands `(200, 56)`. -/
theorem c4_witness :
    (0 < 8 ∧ (intMin 8 ≤ (100 : Int) ∧ (100 : Int) ≤ intMax 8) ∧
     (intMin 8 ≤ (28 : Int) ∧ (28 : Int) ≤ intMax 8) ∧
     ((0 : Int) ≤ 200 ∧ (200 : Int) ≤ uintMax 8) ∧
     ((0 : Int) ≤ 56 ∧ (56 : Int) ≤ uintMax 8)) ∧
    ((Signed.try_add 8 100 28 = .ok (100 + 28) → Signed.wrapping_add 8 100 28 = 100 + 28) ∧
     (isError (Signed.try_add 8 100 28) = true →
       (2 ^ 8 : Int) ∣ (Signed.wrapping_add 8 100 28 - (100 + 28)) ∧
       intMin 8 ≤ Signed.wrapping_add 8 100 28 ∧ Signed.wrapping_add 8 100 28 ≤ intMax 8) ∧
     (Signed.try_sub 8 100 28 = .ok (100 - 28) → Signed.wrapping_sub 8 100 28 = 100 - 28) ∧
     (isError (Signed.try_sub 8 100 28) = true →
       (2 ^ 8 : Int) ∣ (Signed.wrapping_sub 8 100 28 - (100 - 28)) ∧
       intMin 8 ≤ Signed.wrapping_sub 8 100 28 ∧ Signed.wrapping_sub 8 100 28 ≤ intMax 8) ∧
     (Signed.try_mul 8 100 28 = .ok (100 * 28) → Signed.wrapping_mul 8 100 28 = 100 * 28) ∧
     (isError (Signed.try_mul 8 100 28) = true →
       (2 ^ 8 : Int) ∣ (Signed.wrapping_mul 8 100 28 - (100 * 28)) ∧
       intMin 8 ≤ Signed.wrapping_mul 8 100 28 ∧ Signed.wrapping_mul 8 100 28 ≤ intMax 8) ∧
     (Unsigned.try_add 8 200 56 = .ok (200 + 56) → Unsigned.wrapping_add 8 200 56 = 200 + 56) ∧
     (isError (Unsigned.try_add 8 200 56) = true →
       (2 ^ 8 : Int) ∣ (Unsigned.wrapping_add 8 200 56 - (200 + 56)) ∧
       0 ≤ Unsigned.wrapping_add 8 200 56 ∧ Unsigned.wrapping_add 8 200 56 ≤ uintMax 8) ∧
     (Unsigned.try_sub 8 200 56 = .ok (200 - 56) → Unsigned.wrapping_sub 8 200 56 = 200 - 56) ∧
     (isError (Unsigned.try_sub 8 200 56) = true →
       (2 ^ 8 : Int) ∣ (Unsigned.wrapping_sub 8 200 56 - (200 - 56)) ∧
       0 ≤ Unsigned.wrapping_sub 8 200 56 ∧ Unsigned.wrapping_sub 8 200 56 ≤ uintMax 8) ∧
     (Unsigned.try_mul 8 200 56 = .ok (200 * 56) → Unsigned.wrapping_mul 8 200 56 = 200 * 56) ∧
     (isError (Unsigned.try_mul 8 200 56) = true →
       (2 ^ 8 : Int) ∣ (Unsigned.wrapping_mul 8 200 56 - (200 * 56)) ∧
       0 ≤ Unsigned.wrapping_mul 8 200 56 ∧ Unsigned.wrapping_mul 8 200 56 ≤ uintMax 8)) :=
  ⟨by decide, c4_wrapping_consistency 8 100 28 200 56 (by decide)⟩

/-- Negating the dividend negates the truncated remainder. -/
theorem tmod_neg_left (a b : Int) : Int.tmod (-a) b = -Int.tmod a b := by
  rw [Int.tmod_def, Int.tmod_def, Int.neg_tdiv]
  ring

/-- For a nonnegative dividend the truncated remainder is nonnegative and
bounded by the divisor's magnitude. -/
theorem tmod_nonneg_and_lt (a b : Int) (ha : 0 ≤ a) (hb : b ≠ 0) :
    0 ≤ Int.tmod a b ∧ Int.tmod a b < |b| := by
  rcases lt_or_gt_of_ne hb with h | h
  · rw [abs_of_neg h]
    refine ⟨Int.tmod_nonneg b ha, ?_⟩
    have hlt := Int.tmod_lt_of_pos a (neg_pos.mpr h)
    rw [Int.tmod_neg] at hlt
    exact hlt
  · rw [abs_of_pos h]
    exact ⟨Int.tmod_nonneg b ha, Int.tmod_lt_of_pos a h⟩

/-- The truncated remainder is smaller in magnitude than the divisor. -/
theorem tmod_abs_lt (a b : Int) (hb : b ≠ 0) : |Int.tmod a b| < |b| := by
  rcases le_or_lt 0 a with ha | ha
  · obtain ⟨h1, h2⟩ := tmod_nonneg_and_lt a b ha hb
    rw [abs_of_nonneg h1]
    exact h2
  · obtain ⟨h1, h2⟩ := tmod_nonneg_and_lt (-a) b (by omega) hb
    rw [tmod_neg_left] at h1 h2
    rw [abs_of_nonpos (by linarith)]
    linarith

/-- The truncated remainder is zero or carries the sign of the dividend. -/
theorem tmod_sign_dividend (a b : Int) (hb : b ≠ 0) :
    Int.tmod a b = 0 ∨ Int.sign (Int.tmod a b) = Int.sign a := by
  rcases lt_trichotomy a 0 with ha | ha | ha
  · by_cases h0 : Int.tmod a b = 0
    · exact Or.inl h0
    · right
      have h1 := (tmod_nonneg_and_lt (-a) b (by omega) hb).1
      rw [tmod_neg_left] at h1
      rw [Int.sign_eq_neg_one_of_neg (by omega), Int.sign_eq_neg_one_of_neg ha]
  · subst ha
    exact Or.inl (Int.zero_tmod b)
  · by_cases h0 : Int.tmod a b = 0
    · exact Or.inl h0
    · right
      have h1 := Int.tmod_nonneg b (le_of_lt ha)
      rw [Int.sign_eq_one_of_pos (by omega), Int.sign_eq_one_of_pos ha]

/-- Claim C10: for every signed integer type and all operands `a`, `b` with
`b ≠ 0` and not (`a == MIN` and `b == -1`), `try_div` and `try_rem` both
succeed and implement truncated (round-toward-zero) division:
`try_div(a, b) = Ok(q)` and `try_rem(a, b) = Ok(r)` where `a = q·b + r`,
`|r| < |b|`, and `r` is zero or has the same sign as the dividend `a`. -/
theorem c10_truncated_division (W : Nat) (a b : Int)
    (h : (intMin W ≤ a ∧ a ≤ intMax W) ∧ (intMin W ≤ b ∧ b ≤ intMax W) ∧
      b ≠ 0 ∧ ¬(a = intMin W ∧ b = -1)) :
    Signed.try_div W a b = .ok (Int.tdiv a b) ∧
    Signed.try_rem W a b = .ok (Int.tmod a b) ∧
    a = Int.tdiv a b * b + Int.tmod a b ∧
    |Int.tmod a b| < |b| ∧
    (Int.tmod a b = 0 ∨ Int.sign (Int.tmod a b) = Int.sign a) := by
  obtain ⟨-, -, hb, hm⟩ := h
  refine ⟨?_, ?_, ?_, tmod_abs_lt a b hb, tmod_sign_dividend a b hb⟩
  · rw [Signed.try_div_eq, if_neg hb, if_neg hm]
  · rw [Signed.try_rem_eq, if_neg hb, if_neg hm]
  · have he := Int.tmod_add_tdiv a b
    linarith

/-- Witness for claim C10 at `W = 8`, operands `(-99, 10)`: the quotient is
`-9` and the remainder `-9`, carrying the dividend's sign. -/
theorem c10_witness :
    ((intMin 8 ≤ (-99 : Int) ∧ (-99 : Int) ≤ intMax 8) ∧
     (intMin 8 ≤ (10 : Int) ∧ (10 : Int) ≤ intMax 8) ∧
     (10 : Int) ≠ 0 ∧ ¬((-99 : Int) = intMin 8 ∧ (10 : Int) = -1)) ∧
    (Signed.try_div 8 (-99) 10 = .ok (Int.tdiv (-99) 10) ∧
     Signed.try_rem 8 (-99) 10 = .ok (Int.tmod (-99) 10) ∧
     (-99 : Int) = Int.tdiv (-99) 10 * 10 + Int.tmod (-99) 10 ∧
     |Int.tmod (-99) 10| < |(10 : Int)| ∧
     (Int.tmod (-99) 10 = 0 ∨ Int.sign (Int.tmod (-99) 10) = Int.sign (-99))) :=
  ⟨by decide, c10_truncated_division 8 (-99) 10 (by decide)⟩

/-- Claim C7: every widening error conversion (`Overflow → RangeError`,
`Underflow → RangeError`, `Overflow → ArithmeticError`,
`Underflow → ArithmeticError`, `Undefined → ArithmeticError`,
`RangeError → ArithmeticError`) is total and injective, and converting a
narrow kind into a broader kind then matching the result back recovers the
original kind.  Totality holds because each conversion is a total Lean
function; injectivity on the singleton sources is immediate and on the
two-valued `RangeError` source is the distinctness of the two images; the
matching-back equations are stated for every source value. -/
theorem c7_error_conversions_lossless :
    RangeError.fromOverflow .mk = RangeError.Overflow ∧
    RangeError.fromUnderflow .mk = RangeError.Underflow ∧
    ArithmeticError.fromOverflow .mk = ArithmeticError.Overflow ∧
    ArithmeticError.fromUnderflow .mk = ArithmeticError.Underflow ∧
    ArithmeticError.fromUndefined .mk = ArithmeticError.Undefined ∧
    ArithmeticError.fromRangeError RangeError.Underflow = ArithmeticError.Underflow ∧
    ArithmeticError.fromRangeError RangeError.Overflow = ArithmeticError.Overflow ∧
    ArithmeticError.fromRangeError RangeError.Underflow ≠
      ArithmeticError.fromRangeError RangeError.Overflow ∧
    RangeError.toOverflow (RangeError.fromOverflow .mk) = some .mk ∧
    RangeError.toUnderflow (RangeError.fromUnderflow .mk) = some .mk ∧
    ArithmeticError.toOverflow (ArithmeticError.fromOverflow .mk) = some .mk ∧
    ArithmeticError.toUnderflow (ArithmeticError.fromUnderflow .mk) = some .mk ∧
    ArithmeticError.toUndefined (ArithmeticError.fromUndefined .mk) = some .mk ∧
    ArithmeticError.toRangeError (ArithmeticError.fromRangeError RangeError.Underflow) =
      some RangeError.Underflow ∧
    ArithmeticError.toRangeError (ArithmeticError.fromRangeError RangeError.Overflow) =
      some RangeError.Overflow := by
  decide

/-- Claim C8 counterexample: the claim asserts a saturating negation operator
exists for every unsigned integer type, but the `impl_uint_ops` macro of
src/saturating_ops.rs generates no `SaturatingNeg` impl for any unsigned
type (only `SaturatingAdd`, `SaturatingMul`, `SaturatingSub`). -/
theorem c8_counterexample : Unsigned.hasSaturatingNeg = false := by
  decide

/-- Claim C8 amended: no saturating negation operator is provided for
unsigned integer types; `SaturatingNeg` is implemented only for signed
types, where negating `MIN` saturates to `MAX`. -/
theorem c8_saturating_neg_signed_only (W : Nat) :
    Unsigned.hasSaturatingNeg = false ∧ Signed.hasSaturatingNeg = true ∧
    Signed.saturating_neg W (intMin W) = intMax W := by
  refine ⟨rfl, rfl, ?_⟩
  simp [Signed.saturating_neg]

/-- Claim C9 counterexample: the claim asserts signed checked negation
reports failure through the `RangeError` union kind, but `TryNeg for iN`
declares `type Error = Overflow`, the single-kind struct. -/
theorem c9_counterexample : Signed.tryNegErrorTy ≠ ErrKind.rangeError := by
  decide

/-- Claim C9 amended: checked negation on signed integer types reports
failure through the single-kind `Overflow` error (signed negation can fail
in only one direction, at `a == MIN`), not through the `RangeError` union. -/
theorem c9_try_neg_overflow_kind (W : Nat) (a : Int) :
    Signed.tryNegErrorTy = ErrKind.overflow ∧
    (Signed.try_neg W a = .error Overflow.mk ↔ a = intMin W) ∧
    (Signed.try_neg W a = .ok (-a) ↔ a ≠ intMin W) := by
  unfold Signed.try_neg Signed.checked_neg
  by_cases h : a = intMin W <;> simp [h, Signed.tryNegErrorTy]

end ExtOps
